import Mathlib

/-!
Verification development for the `wutz/qrcode` Cloudflare Worker
(image upload + QR-code generation service).

The embedding follows the current worker source (the file using the
`qrcode-svg` library, the `R2_PUBLIC_URL` binding and the
degrade-on-QR-failure policy, as documented in the repository README).
JavaScript string operations are modelled character-wise on `String.data`;
environment reads (`Date.now()`, `Math.random().toString(36)`, the request
origin, the `R2_PUBLIC_URL` binding) are explicit parameters; the R2 bucket,
the `qrcode-svg` library, `btoa`/`encodeURIComponent`/`unescape` and URL
parsing are collaborators modelled as function parameters; thrown JS
exceptions are modelled with `Option`/`Except`.
-/

namespace QRService

/-! ### JavaScript string primitives -/

/-- JS `str.substring(a, b)` for `a ≤ b`: the characters at indices
`a, …, b-1`, clamped to the string length. -/
def jsSubstring (s : String) (a b : Nat) : String :=
  String.mk ((s.data.take b).drop a)

/-- JS `str.split(sep)` on a single-character separator, modelled on
character lists.  `splitOnChar sep l` always returns a non-empty list of
components whose concatenation interleaved with `sep` is `l`. -/
def splitOnChar (sep : Char) : List Char → List (List Char)
  | [] => [[]]
  | c :: cs =>
    match splitOnChar sep cs with
    | [] => [[]]
    | r :: rs => if c = sep then [] :: r :: rs else (c :: r) :: rs

/-- JS `str.split('.').pop()`: the component after the last `'.'`
(the whole string when it has no `'.'`). -/
def lastComponent (s : String) : String :=
  String.mk ((splitOnChar '.' s.data).getLastD [])

/-- JS `str.endsWith(c)` for a one-character suffix. -/
def endsWithChar (s : String) (c : Char) : Bool :=
  s.data.getLast? = some c

/-- JS `str.slice(0, -1)`: drop the last character. -/
def dropLastChar (s : String) : String :=
  String.mk s.data.dropLast

/-- JS `x || d` for an optional number: `d` when the value is absent
(`undefined`) or falsy (`0`). -/
def jsOrNat (v : Option Nat) (d : Nat) : Nat :=
  match v with
  | some n => if n = 0 then d else n
  | none => d

/-- JS `x || d` for an optional string: `d` when the value is absent
(`undefined`) or falsy (the empty string). -/
def jsOrStr (v : Option String) (d : String) : String :=
  match v with
  | some s => if s = "" then d else s
  | none => d

/-- JS `s.startsWith(p)`. -/
def strStartsWith (s p : String) : Bool :=
  p.data.isPrefixOf s.data

/-! ### `generateFileName` (source: `function generateFileName`)

```js
function generateFileName(originalName: string): string {
  const timestamp = Date.now();
  const random = Math.random().toString(36).substring(2, 8);
  const ext = originalName.split('.').pop() || 'png';
  return `${timestamp}-${random}.${ext}`;
}
```
`timestamp` models the `Date.now()` read and `randStr` models the full
`Math.random().toString(36)` rendering (e.g. `"0.k3j9x2…"`). -/

/-- The `originalName.split('.').pop() || 'png'` expression: the last
`'.'`-separated component, defaulting to `"png"` when that component is
empty (JS falsy). -/
def extOf (s : String) : String :=
  if lastComponent s = "" then "png" else lastComponent s

def generateFileName (timestamp : Nat) (randStr : String) (originalName : String) : String :=
  toString timestamp ++ "-" ++ jsSubstring randStr 2 8 ++ "." ++ extOf originalName

/-! ### Upload validation constants (source: `app.post('/api/upload')`) -/

def allowedTypes : List String :=
  ["image/jpeg", "image/png", "image/gif", "image/webp", "image/svg+xml", "image/bmp"]

def maxSize : Nat := 10 * 1024 * 1024

/-! ### Public-URL resolution (source: `app.post('/api/upload')`, the
`publicUrl` computation) -/

/-- Source:
```js
if (c.env.R2_PUBLIC_URL) {
  const baseUrl = c.env.R2_PUBLIC_URL.endsWith('/')
    ? c.env.R2_PUBLIC_URL.slice(0, -1) : c.env.R2_PUBLIC_URL;
  publicUrl = `${baseUrl}/${fileName}`;
} else {
  const baseUrl = new URL(url).origin;
  publicUrl = `${baseUrl}/images/${fileName}`;
}
```
`origin` models `new URL(c.req.url).origin`. -/
def resolvePublicUrl (r2PublicUrl : Option String) (origin : String) (fileName : String) :
    String :=
  match r2PublicUrl with
  | some base =>
    (if endsWithChar base '/' then dropLastChar base else base) ++ "/" ++ fileName
  | none => origin ++ "/images/" ++ fileName

/-! ### `generateQRCode` (source: `function generateQRCode`)

The `qrcode-svg` library (`new QRCode({...}).svg()`), the platform globals
`btoa`, `encodeURIComponent` and `unescape`, and the console are external
collaborators; they are modelled as fields of `Platform` (pure functions,
`Except`/`Option` for throwing ones) and an explicit `World` log. -/

/-- The option object handed to `generateQRCode` (`options?: any`): every
field may be absent (`undefined`). -/
structure GenOptions where
  width : Option Nat
  margin : Option Nat
  dark : Option String
  light : Option String
  ecl : Option String
deriving Repr, DecidableEq

/-- The constructor argument of `new QRCode({...})` in `qrcode-svg`. -/
structure SvgParams where
  content : String
  width : Nat
  padding : Nat
  color : String
  background : String
  ecl : String
deriving Repr, DecidableEq

/-- Platform collaborators used by `generateQRCode`.  `svgRender` models
`new QRCode(params).svg()` (it may throw, e.g. on over-capacity content);
`btoa` may throw on non-latin1 input; `btoaDefined` models
`typeof btoa !== 'undefined'`. -/
structure Platform where
  svgRender : SvgParams → Except String String
  btoaDefined : Bool
  btoa : String → Option String
  encodeURI : String → String
  unescape : String → String

/-- Ambient mutable state visible to the worker: the console log. -/
structure World where
  log : List String
deriving Repr, DecidableEq

/-- Source:
```js
function generateQRCode(text: string, options?: any): string {
  try {
    if (!text || typeof text !== 'string' || text.length === 0) throw ...;
    const qr = new QRCode({
      content: text,
      width: options?.width || 300,
      padding: options?.margin !== undefined ? options.margin * 4 : 8,
      color: options?.color?.dark || '#000000',
      background: options?.color?.light || '#ffffff',
      ecl: options?.errorCorrectionLevel || 'M',
    });
    const svg = qr.svg();
    if (!svg || typeof svg !== 'string') throw ...;
    let dataUrl;
    try {
      if (typeof btoa !== 'undefined') {
        const encoded = encodeURIComponent(svg);
        const base64 = btoa(unescape(encoded));
        dataUrl = `data:image/svg+xml;base64,${base64}`;
      } else {
        dataUrl = `data:image/svg+xml;charset=utf-8,${encodeURIComponent(svg)}`;
      }
    } catch (e) {
      dataUrl = `data:image/svg+xml;charset=utf-8,${encodeURIComponent(svg)}`;
    }
    return dataUrl;
  } catch (error) { console.error(...); throw error; }
}
```
The result is the possibly-extended console log together with the returned
data URL (`Except.ok`) or the rethrown error (`Except.error`).

The constructor argument of `new QRCode({...})` built from `text` and the
caller's options, with the JS defaulting rules (`||` uses the default on
falsy values, the `margin` check is an explicit `!== undefined`): -/
def svgParamsOf (text : String) (opts : GenOptions) : SvgParams :=
  { content := text
    width := jsOrNat opts.width 300
    padding := match opts.margin with | some m => m * 4 | none => 8
    color := jsOrStr opts.dark "#000000"
    background := jsOrStr opts.light "#ffffff"
    ecl := jsOrStr opts.ecl "M" }

def generateQRCode (p : Platform) (w : World) (text : String) (opts : GenOptions) :
    World × Except String String :=
  if text = "" then
    (⟨w.log ++ ["QR Code generation failed: Invalid text for QR code generation"]⟩,
     Except.error "Invalid text for QR code generation")
  else
    match p.svgRender (svgParamsOf text opts) with
    | Except.error e =>
      (⟨w.log ++ ["QR Code generation failed: " ++ e]⟩, Except.error e)
    | Except.ok svg =>
      if svg = "" then
        (⟨w.log ++ ["QR Code generation failed: QR code generation returned invalid SVG"]⟩,
         Except.error "QR code generation returned invalid SVG")
      else
        let dataUrl : String :=
          if p.btoaDefined then
            match p.btoa (p.unescape (p.encodeURI svg)) with
            | some b64 => "data:image/svg+xml;base64," ++ b64
            | none => "data:image/svg+xml;charset=utf-8," ++ p.encodeURI svg
          else
            "data:image/svg+xml;charset=utf-8," ++ p.encodeURI svg
        (w, Except.ok dataUrl)

/-! ### The `/api/upload` handler (source: `app.post('/api/upload')`) -/

/-- A file extracted from the multipart form (`formData.get('file')`):
its original name, declared MIME type and size in bytes. -/
structure FileData where
  name : String
  type : String
  size : Nat
deriving Repr, DecidableEq

/-- One operation issued against the R2 bucket collaborator. -/
inductive StoreOp where
  | put (key : String) (contentType : String)
  | get (key : String)
  | delete (key : String)
deriving Repr, DecidableEq

/-- The JSON response of `/api/upload`: either `c.json({error}, status)` or
the success shape `{success: true, imageUrl, qrCode, fileName,
qrCodeGenerated}`. -/
inductive UploadResponse where
  | err (status : Nat) (message : String)
  | ok (imageUrl : String) (qrCode : Option String) (fileName : String)
       (qrCodeGenerated : Bool)
deriving Repr, DecidableEq

/-- The options object the upload handler passes to `generateQRCode`
(source lines: `width: 300, margin: 2, color: {dark, light},
errorCorrectionLevel: 'M'`). -/
def uploadQrOptions : GenOptions :=
  { width := some 300, margin := some 2, dark := some "#000000",
    light := some "#ffffff", ecl := some "M" }

/-- The inner `try` block around QR generation in the upload handler:
```js
let qrCodeDataUrl: string | null = null;
try {
  if (!publicUrl || publicUrl.length === 0) throw ...;
  try { new URL(publicUrl); } catch { throw ...; }
  qrCodeDataUrl = generateQRCode(publicUrl, {...});
  if (!qrCodeDataUrl || !qrCodeDataUrl.startsWith('data:image')) throw ...;
} catch (qrError) { console.error(...); }
```
`urlValid` models whether `new URL(publicUrl)` succeeds and `gen` models
`generateQRCode`.  Note the final `startsWith` check can only log: by the
time it throws, `qrCodeDataUrl` already holds the generated value, and the
`catch` does not reset it. -/
def uploadQrAttempt (urlValid : String → Bool)
    (gen : String → GenOptions → Except String String) (publicUrl : String) :
    Option String :=
  if publicUrl.length = 0 then none
  else if urlValid publicUrl then (gen publicUrl uploadQrOptions).toOption
  else none

/-- The `/api/upload` handler.  Environment reads are parameters:
`timestamp` for `Date.now()`, `randStr` for `Math.random().toString(36)`,
`origin` for `new URL(c.req.url).origin`, `r2PublicUrl` for
`c.env.R2_PUBLIC_URL`.  `putErr = some m` models `R2_BUCKET.put` throwing
with message `m` (caught by the outer handler `catch`).  The second
component is the trace of bucket operations issued. -/
def uploadHandler (file : Option FileData) (timestamp : Nat) (randStr : String)
    (origin : String) (r2PublicUrl : Option String) (putErr : Option String)
    (urlValid : String → Bool) (gen : String → GenOptions → Except String String) :
    UploadResponse × List StoreOp :=
  match file with
  | none => (UploadResponse.err 400 "Please select an image to upload", [])
  | some f =>
    if f.type ∉ allowedTypes then
      (UploadResponse.err 400 "Unsupported file type, please upload an image file", [])
    else if f.size > maxSize then
      (UploadResponse.err 400 "File size cannot exceed 10MB", [])
    else
      let fileName := generateFileName timestamp randStr f.name
      match putErr with
      | some _ =>
        (UploadResponse.err 500 "Upload failed, please try again",
         [StoreOp.put fileName f.type])
      | none =>
        let publicUrl := resolvePublicUrl r2PublicUrl origin fileName
        let qrCodeDataUrl := uploadQrAttempt urlValid gen publicUrl
        (UploadResponse.ok publicUrl qrCodeDataUrl fileName qrCodeDataUrl.isSome,
         [StoreOp.put fileName f.type])

/-! ### The `/api/qrcode` handler (source: `app.post('/api/qrcode')`) -/

/-- The parsed JSON body of `/api/qrcode`.  Every field the client may
send; `eccLevel` is carried to show the handler never reads it. -/
structure QrBody where
  url : Option String
  size : Option Nat
  darkColor : Option String
  lightColor : Option String
  eccLevel : Option String
deriving Repr, DecidableEq

/-- The JSON response of `/api/qrcode`: the 500 branch carries
`{error, details}`. -/
inductive QrResponse where
  | err (status : Nat) (message : String)
  | errDetails (status : Nat) (message : String) (details : String)
  | ok (qrCode : String)
deriving Repr, DecidableEq

/-- The options object `/api/qrcode` builds for `generateQRCode`:
```js
const { url, size = 300, darkColor = '#000000', lightColor = '#ffffff' } = body;
... generateQRCode(url, { width: size, margin: 2,
      color: { dark: darkColor, light: lightColor },
      errorCorrectionLevel: 'M' });
```
Destructuring defaults fire only on absent (`undefined`) fields; the
error-correction level is the literal `'M'`. -/
def qrcodeOptions (b : QrBody) : GenOptions :=
  { width := some (b.size.getD 300)
    margin := some 2
    dark := some (b.darkColor.getD "#000000")
    light := some (b.lightColor.getD "#ffffff")
    ecl := some "M" }

/-- The `/api/qrcode` handler.  `b.url = none` models an absent `url`
field; the JS `if (!url)` also catches the empty string (falsy).
`urlValid` models `new URL(url)` succeeding; `gen` models
`generateQRCode` (`Except.error` = throw, reaching the outer `catch`,
which responds 500 with the error message as `details`). -/
def qrcodeHandler (b : QrBody) (urlValid : String → Bool)
    (gen : String → GenOptions → Except String String) : QrResponse :=
  match b.url with
  | none => QrResponse.err 400 "Please provide a URL"
  | some u =>
    if u = "" then QrResponse.err 400 "Please provide a URL"
    else if urlValid u then
      match gen u (qrcodeOptions b) with
      | Except.error e => QrResponse.errDetails 500 "Failed to generate QR code" e
      | Except.ok s =>
        if strStartsWith s "data:image" then QrResponse.ok s
        else QrResponse.errDetails 500 "Failed to generate QR code"
               "QR code generation returned invalid data"
    else QrResponse.err 400 "Invalid URL format"

/-! ### Shared lemmas about the JS string primitives -/

theorem splitOnChar_ne_nil (sep : Char) (l : List Char) : splitOnChar sep l ≠ [] := by
  cases l with
  | nil => simp [splitOnChar]
  | cons c cs =>
    simp only [splitOnChar]
    cases h : splitOnChar sep cs with
    | nil => simp
    | cons r rs => by_cases hc : c = sep <;> simp [hc]

theorem splitOnChar_exists_cons (sep : Char) (l : List Char) :
    ∃ r rs, splitOnChar sep l = r :: rs := by
  cases hx : splitOnChar sep l with
  | nil => exact absurd hx (splitOnChar_ne_nil sep l)
  | cons a b => exact ⟨a, b, rfl⟩

theorem two_le_splitOnChar_length_of_mem (sep : Char) (l : List Char) (h : sep ∈ l) :
    2 ≤ (splitOnChar sep l).length := by
  induction l with
  | nil => cases h
  | cons c cs ih =>
    obtain ⟨r, rs, hs⟩ := splitOnChar_exists_cons sep cs
    by_cases hc : c = sep
    · simp only [splitOnChar, hs]
      rw [if_pos hc]
      simp
    · have hmem : sep ∈ cs := by
        cases List.mem_cons.mp h with
        | inl he => exact absurd he.symm hc
        | inr hm => exact hm
      have h2 := ih hmem
      rw [hs] at h2
      simp only [List.length_cons] at h2
      simp only [splitOnChar, hs]
      rw [if_neg hc]
      simp only [List.length_cons]
      omega

theorem splitOnChar_of_not_mem (sep : Char) (l : List Char) (h : sep ∉ l) :
    splitOnChar sep l = [l] := by
  induction l with
  | nil => rfl
  | cons c cs ih =>
    have hc : ¬ c = sep := fun e => h (e ▸ List.mem_cons_self c cs)
    have hcs : sep ∉ cs := fun m => h (List.mem_cons_of_mem _ m)
    simp only [splitOnChar, ih hcs]
    simp [hc]

theorem splitOnChar_getLastD_eq_nil (sep : Char) (l : List Char) :
    (splitOnChar sep l).getLastD [] = [] ↔ l = [] ∨ l.getLast? = some sep := by
  induction l with
  | nil => simp [splitOnChar]
  | cons c cs ih =>
    obtain ⟨r, rs, h⟩ := splitOnChar_exists_cons sep cs
    rw [h] at ih
    simp only [splitOnChar, h]
    by_cases hc : c = sep
    · subst hc
      rw [if_pos rfl, List.getLastD_cons]
      cases cs with
      | nil =>
        have hr : r = [] ∧ rs = [] := by
          have heq : ([[]] : List (List Char)) = r :: rs := by
            rw [← h]; rfl
          cases heq; exact ⟨rfl, rfl⟩
        simp [hr.1, hr.2]
      | cons d ds =>
        rw [List.getLast?_cons_cons]
        simp only [List.cons_ne_nil, false_or] at ih ⊢
        exact ih.trans (by simp)
    · rw [if_neg hc]
      cases rs with
      | nil =>
        constructor
        · intro habs
          simp at habs
        · intro hr
          cases hr with
          | inl he => cases he
          | inr hlast =>
            cases cs with
            | nil =>
              simp only [List.getLast?_singleton, Option.some_inj] at hlast
              exact absurd hlast hc
            | cons d ds =>
              rw [List.getLast?_cons_cons] at hlast
              have hmem : sep ∈ d :: ds := List.mem_of_getLast?_eq_some hlast
              have h2 := two_le_splitOnChar_length_of_mem sep (d :: ds) hmem
              rw [h] at h2
              simp at h2
      | cons r' rs' =>
        have hcs : cs ≠ [] := by
          intro he
          rw [he] at h
          have heq : ([[]] : List (List Char)) = r :: r' :: rs' := by
            rw [← h]; rfl
          cases heq
        rw [List.getLastD_cons]
        rw [List.getLastD_cons] at ih
        have hgl : (c :: cs).getLast? = cs.getLast? := by
          cases cs with
          | nil => exact absurd rfl hcs
          | cons d ds => exact List.getLast?_cons_cons
        rw [hgl]
        have hdef : (r' :: rs').getLastD (c :: r) = (r' :: rs').getLastD r := by
          rw [List.getLastD_cons, List.getLastD_cons]
        rw [hdef]
        simp only [hcs, false_or] at ih
        simp only [List.cons_ne_nil, false_or]
        exact ih

theorem isPrefixOf_self_append (l r : List Char) : l.isPrefixOf (l ++ r) = true := by
  induction l with
  | nil => simp [List.isPrefixOf]
  | cons a as ih =>
    simp only [List.cons_append, List.isPrefixOf_cons₂_self]
    exact ih

theorem string_data_append (a b : String) : (a ++ b).data = a.data ++ b.data := rfl

theorem strStartsWith_append (p rest b : String) :
    strStartsWith (p ++ rest ++ b) p = true := by
  show p.data.isPrefixOf ((p ++ rest ++ b).data) = true
  rw [string_data_append, string_data_append, List.append_assoc]
  exact isPrefixOf_self_append p.data (rest.data ++ b.data)

theorem endsWithChar_iff_concat (s : String) (c : Char) :
    endsWithChar s c = true ↔ ∃ t : String, s = t ++ String.singleton c := by
  unfold endsWithChar
  rw [decide_eq_true_iff]
  rw [List.getLast?_eq_some_iff]
  constructor
  · rintro ⟨ys, hy⟩
    refine ⟨String.mk ys, ?_⟩
    apply String.ext
    rw [string_data_append]
    exact hy
  · rintro ⟨t, ht⟩
    refine ⟨t.data, ?_⟩
    rw [ht, string_data_append]
    rfl

theorem dropLastChar_concat (t : String) (c : Char) :
    dropLastChar (t ++ String.singleton c) = t := by
  unfold dropLastChar
  apply String.ext
  rw [string_data_append]
  simp [String.singleton]

theorem string_mk_length (l : List Char) : (String.mk l).length = l.length := rfl

/-! ### Claim theorems -/

/-- C9: in `generateFileName`, for every non-empty original name without a
`'.'` the key's extension is the entire original name, and the
`|| 'png'` default fires (i.e. `split('.').pop()` is empty) exactly when
the original name is empty or ends with a `'.'`. -/
theorem upload_extension_rule (name : String) :
    (name ≠ "" → '.' ∉ name.data → extOf name = name) ∧
    (lastComponent name = "" ↔ name = "" ∨ ∃ t : String, name = t ++ ".") := by
  constructor
  · intro hne hnd
    have hlc : lastComponent name = name := by
      unfold lastComponent
      rw [splitOnChar_of_not_mem '.' name.data hnd, List.getLastD_cons]
      rfl
    unfold extOf
    rw [hlc, if_neg hne]
  · constructor
    · intro h0
      have hdat : (splitOnChar '.' name.data).getLastD [] = [] :=
        congrArg String.data h0
      rcases (splitOnChar_getLastD_eq_nil '.' name.data).mp hdat with hnil | hlast
      · exact Or.inl (String.ext hnil)
      · refine Or.inr ?_
        have hB : endsWithChar name '.' = true := by
          unfold endsWithChar
          exact decide_eq_true hlast
        obtain ⟨t, ht⟩ := (endsWithChar_iff_concat name '.').mp hB
        exact ⟨t, ht⟩
    · intro h
      unfold lastComponent
      rcases h with hnil | ⟨t, ht⟩
      · subst hnil
        rfl
      · subst ht
        have hlast : (t ++ ".").data.getLast? = some '.' := by
          rw [string_data_append]
          exact List.getLast?_concat _
        have hnil := (splitOnChar_getLastD_eq_nil '.' (t ++ ".").data).mpr (Or.inr hlast)
        rw [hnil]

/-- C9 witness: `'photo'` keeps its whole name as the extension, and the
`png` default fires on a name ending in `'.'`. -/
theorem upload_extension_rule_witness :
    extOf "photo" = "photo" ∧ lastComponent "a." = "" := by
  constructor
  · exact (upload_extension_rule "photo").1 (by decide) (by decide)
  · exact (upload_extension_rule "a.").2.mpr (Or.inr ⟨"a", by decide⟩)

/-- C4: the public address of a stored key is the configured base URL with
a single trailing slash removed, then `'/'` and the key; with no configured
base it is the request origin, `'/images/'` and the key.  The second
conjunct identifies the code's `endsWith('/')` test with having the form
`u ++ "/"`. -/
theorem resolve_public_url_spec (b t origin key : String) :
    resolvePublicUrl none origin key = origin ++ "/images/" ++ key ∧
    (endsWithChar b '/' = true ↔ ∃ u : String, b = u ++ "/") ∧
    (b = t ++ "/" → resolvePublicUrl (some b) origin key = t ++ "/" ++ key) ∧
    (endsWithChar b '/' = false → resolvePublicUrl (some b) origin key = b ++ "/" ++ key) := by
  refine ⟨rfl, ?_, ?_, ?_⟩
  · rw [endsWithChar_iff_concat]
    constructor <;> rintro ⟨u, hu⟩ <;> exact ⟨u, hu⟩
  · intro hb
    have he : endsWithChar b '/' = true := (endsWithChar_iff_concat b '/').mpr ⟨t, hb⟩
    have hd : dropLastChar (t ++ "/") = t := dropLastChar_concat t '/'
    simp only [resolvePublicUrl]
    rw [if_pos he, hb, hd]
  · intro hb
    simp only [resolvePublicUrl]
    rw [hb]
    simp

/-- C4 witness: concrete resolutions with a slash-terminated base, a bare
base, and no configured base. -/
theorem resolve_public_url_spec_witness :
    resolvePublicUrl (some "https://cdn.example.com/") "https://w.example" "k.png"
      = "https://cdn.example.com" ++ "/" ++ "k.png" ∧
    resolvePublicUrl (some "https://cdn.example.com") "https://w.example" "k.png"
      = "https://cdn.example.com" ++ "/" ++ "k.png" ∧
    resolvePublicUrl none "https://w.example" "k.png"
      = "https://w.example" ++ "/images/" ++ "k.png" := by
  refine ⟨?_, ?_, ?_⟩
  · exact (resolve_public_url_spec "https://cdn.example.com/" "https://cdn.example.com"
      "https://w.example" "k.png").2.2.1 (by decide)
  · exact (resolve_public_url_spec "https://cdn.example.com" "x"
      "https://w.example" "k.png").2.2.2 (by decide)
  · exact (resolve_public_url_spec "x" "x" "https://w.example" "k.png").1

/-- C5 counterexample: the random component of a generated key need not
have 6 characters.  `Math.random()` can return `0.5`, whose base-36
rendering is `"0.i"`; `substring(2, 8)` of it is the single character
`"i"`. -/
theorem upload_key_random_not_six_chars :
    generateFileName 1735689600000 "0.i" "photo.png" = "1735689600000-i.png" ∧
    (jsSubstring "0.i" 2 8).length = 1 := by
  constructor
  · rfl
  · rfl

/-- C5 amended: the generated key is exactly
`toString timestamp ++ "-" ++ random ++ "." ++ ext` where `random` is the
`substring(2, 8)` of the base-36 rendering of `Math.random()` — hence at
most 6 characters — and `ext` comes from the original name; the upload
handler never issues a bucket `get` (no uniqueness pre-check), on any
request.  The timestamp component is the `Date.now()` value verbatim, so it
is non-decreasing across calls whenever the clock is. -/
theorem upload_key_shape (timestamp : Nat) (randStr name origin : String)
    (file : Option FileData) (r2PublicUrl putErr : Option String)
    (urlValid : String → Bool) (gen : String → GenOptions → Except String String) :
    generateFileName timestamp randStr name
      = toString timestamp ++ "-" ++ jsSubstring randStr 2 8 ++ "." ++ extOf name ∧
    (jsSubstring randStr 2 8).length ≤ 6 ∧
    ∀ k, StoreOp.get k ∉
      (uploadHandler file timestamp randStr origin r2PublicUrl putErr urlValid gen).2 := by
  refine ⟨rfl, ?_, ?_⟩
  · unfold jsSubstring
    rw [string_mk_length]
    simp only [List.length_drop, List.length_take]
    omega
  · intro k
    cases file with
    | none => simp [uploadHandler]
    | some f =>
      by_cases h1 : f.type ∉ allowedTypes
      · simp [uploadHandler, h1]
      · by_cases h2 : f.size > maxSize
        · simp [uploadHandler, h1, h2]
        · cases putErr <;> simp [uploadHandler, h1, h2]

/-- C1: when validation passes, the store `put` succeeds and the QR-code
step then fails for any reason (`uploadQrAttempt` evaluates to `none`:
empty or unparseable public URL, or `generateQRCode` throwing), the handler
still answers with the success shape — the resolved address, a `null`
`qrCode`, the stored key and `qrCodeGenerated: false` — and the operation
trace is exactly the one `put`: the stored object is never deleted. -/
theorem upload_success_despite_qr_failure
    (f : FileData) (timestamp : Nat) (randStr origin : String)
    (r2PublicUrl : Option String) (urlValid : String → Bool)
    (gen : String → GenOptions → Except String String)
    (hty : f.type ∈ allowedTypes) (hsz : f.size ≤ maxSize)
    (hqr : uploadQrAttempt urlValid gen
      (resolvePublicUrl r2PublicUrl origin (generateFileName timestamp randStr f.name))
        = none) :
    uploadHandler (some f) timestamp randStr origin r2PublicUrl none urlValid gen =
      (UploadResponse.ok
        (resolvePublicUrl r2PublicUrl origin (generateFileName timestamp randStr f.name))
        none (generateFileName timestamp randStr f.name) false,
       [StoreOp.put (generateFileName timestamp randStr f.name) f.type]) := by
  have h1 : ¬ f.type ∉ allowedTypes := fun h => h hty
  have h2 : ¬ f.size > maxSize := by omega
  simp only [uploadHandler]
  rw [if_neg h1, if_neg h2]
  simp only [hqr, Option.isSome_none]

/-- C1 witness: a concrete upload whose `new URL` check fails, so QR
generation throws; the response still reports success with a null code. -/
theorem upload_success_despite_qr_failure_witness :
    uploadHandler (some ⟨"a.png", "image/png", 3⟩) 42 "0.abcdef" "https://w.example"
        none none (fun _ => false) (fun _ _ => Except.error "boom") =
      (UploadResponse.ok "https://w.example/images/42-abcdef.png" none "42-abcdef.png" false,
       [StoreOp.put "42-abcdef.png" "image/png"]) := by
  have h := upload_success_despite_qr_failure ⟨"a.png", "image/png", 3⟩ 42 "0.abcdef"
    "https://w.example" none (fun _ => false) (fun _ _ => Except.error "boom")
    (by decide) (by decide) (by rfl)
  rw [h]
  rfl

/-- C2 counterexample: a present but zero-byte payload with an allowed
declared content type is not rejected — the handler stores it and answers
success — contradicting the claim that an empty payload yields a 400 with
no store write.  (Only an unset payload is caught by `if (!file)`.) -/
theorem upload_empty_payload_not_rejected :
    uploadHandler (some ⟨"a.png", "image/png", 0⟩) 42 "0.abcdef" "https://w.example"
        none none (fun _ => true) (fun _ _ => Except.ok "data:image/svg+xml;base64,Zg==") =
      (UploadResponse.ok "https://w.example/images/42-abcdef.png"
        (some "data:image/svg+xml;base64,Zg==") "42-abcdef.png" true,
       [StoreOp.put "42-abcdef.png" "image/png"]) := by
  rfl

/-- C2 amended: an unset payload, a disallowed declared content type, or a
size over the ceiling each yield a 400 error response with an empty bucket
operation trace (no `put` before validation succeeds); a present zero-byte
payload of an allowed type is, however, accepted. -/
theorem upload_validation_rejects
    (file : Option FileData) (timestamp : Nat) (randStr origin : String)
    (r2PublicUrl putErr : Option String) (urlValid : String → Bool)
    (gen : String → GenOptions → Except String String)
    (h : file = none ∨ ∃ f, file = some f ∧ (f.type ∉ allowedTypes ∨ f.size > maxSize)) :
    (uploadHandler file timestamp randStr origin r2PublicUrl putErr urlValid gen).2 = [] ∧
    ∃ msg, (uploadHandler file timestamp randStr origin r2PublicUrl putErr urlValid gen).1
      = UploadResponse.err 400 msg := by
  rcases h with hnone | ⟨f, hf, hbad⟩
  · subst hnone
    exact ⟨rfl, "Please select an image to upload", rfl⟩
  · subst hf
    by_cases hty : f.type ∉ allowedTypes
    · refine ⟨?_, "Unsupported file type, please upload an image file", ?_⟩ <;>
        simp [uploadHandler, hty]
    · have hsz : f.size > maxSize := by
        rcases hbad with hb | hb
        · exact absurd hb hty
        · exact hb
      refine ⟨?_, "File size cannot exceed 10MB", ?_⟩ <;>
        simp [uploadHandler, hty, hsz]

/-- C2 witness: a disallowed content type is rejected with 400 and no
bucket operation. -/
theorem upload_validation_rejects_witness :
    (uploadHandler (some ⟨"doc.pdf", "application/pdf", 3⟩) 42 "0.abcdef" "o" none none
        (fun _ => true) (fun _ _ => Except.error "e")).2 = [] ∧
    ∃ msg, (uploadHandler (some ⟨"doc.pdf", "application/pdf", 3⟩) 42 "0.abcdef" "o" none none
        (fun _ => true) (fun _ _ => Except.error "e")).1 = UploadResponse.err 400 msg :=
  upload_validation_rejects (some ⟨"doc.pdf", "application/pdf", 3⟩) 42 "0.abcdef" "o"
    none none (fun _ => true) (fun _ _ => Except.error "e")
    (Or.inr ⟨⟨"doc.pdf", "application/pdf", 3⟩, rfl, Or.inl (by decide)⟩)

/-- C3: with a payload present, the handler reaches the store write (its
bucket trace is non-empty) exactly when the declared content type is in the
allowed set and the size is at most `maxSize`; and `maxSize` is exactly
10 MiB, so a payload of exactly `10 * 1024 * 1024` bytes passes the size
check and any larger one fails it. -/
theorem upload_validation_iff
    (f : FileData) (timestamp : Nat) (randStr origin : String)
    (r2PublicUrl putErr : Option String) (urlValid : String → Bool)
    (gen : String → GenOptions → Except String String) :
    ((uploadHandler (some f) timestamp randStr origin r2PublicUrl putErr urlValid gen).2 ≠ []
      ↔ f.type ∈ allowedTypes ∧ f.size ≤ 10 * 1024 * 1024) ∧
    maxSize = 10 * 1024 * 1024 := by
  refine ⟨?_, rfl⟩
  by_cases h1 : f.type ∈ allowedTypes
  · have h1n : ¬ f.type ∉ allowedTypes := fun h => h h1
    by_cases h2 : f.size ≤ 10 * 1024 * 1024
    · have h2n : ¬ f.size > maxSize := by
        unfold maxSize
        omega
      simp only [uploadHandler]
      rw [if_neg h1n, if_neg h2n]
      cases putErr <;> simp [h1, h2]
    · have h2y : f.size > maxSize := by
        unfold maxSize
        omega
      simp only [uploadHandler]
      rw [if_neg h1n, if_pos h2y]
      simp [h2]
  · have h1y : f.type ∉ allowedTypes := h1
    simp only [uploadHandler]
    rw [if_pos h1y]
    simp [h1]

/-- C7: when validation has passed and the bucket `put` throws — with any
message `m` whatsoever — the handler answers the fixed generic
`500 "Upload failed, please try again"`; the response is the same for every
underlying storage error and no success shape is produced. -/
theorem upload_storage_failure_generic
    (f : FileData) (timestamp : Nat) (randStr origin m : String)
    (r2PublicUrl : Option String) (urlValid : String → Bool)
    (gen : String → GenOptions → Except String String)
    (hty : f.type ∈ allowedTypes) (hsz : f.size ≤ maxSize) :
    uploadHandler (some f) timestamp randStr origin r2PublicUrl (some m) urlValid gen =
      (UploadResponse.err 500 "Upload failed, please try again",
       [StoreOp.put (generateFileName timestamp randStr f.name) f.type]) := by
  have h1 : ¬ f.type ∉ allowedTypes := fun h => h hty
  have h2 : ¬ f.size > maxSize := by omega
  simp only [uploadHandler]
  rw [if_neg h1, if_neg h2]

/-- C7 witness: a concrete storage failure yields the generic 500
response. -/
theorem upload_storage_failure_generic_witness :
    uploadHandler (some ⟨"a.png", "image/png", 3⟩) 42 "0.abcdef" "https://w.example"
        none (some "R2 exploded: internal details") (fun _ => true)
        (fun _ _ => Except.ok "d") =
      (UploadResponse.err 500 "Upload failed, please try again",
       [StoreOp.put "42-abcdef.png" "image/png"]) := by
  have h := upload_storage_failure_generic ⟨"a.png", "image/png", 3⟩ 42 "0.abcdef"
    "https://w.example" "R2 exploded: internal details" none (fun _ => true)
    (fun _ _ => Except.ok "d") (by decide) (by decide)
  rw [h]
  rfl

/-- C6 counterexample: the `/api/qrcode` endpoint never reads a supplied
`eccLevel`: with `eccLevel: "H"` in the body, the options handed to
`generateQRCode` still carry level `"M"`, and the response is identical to
the one for `eccLevel: "L"`.  So a supplied eccLevel of L/M/Q/H is not
"used for encoding". -/
theorem qrcode_ecclevel_ignored :
    (qrcodeOptions ⟨some "https://example.com", none, none, none, some "H"⟩).ecl = some "M" ∧
    (some "M" : Option String) ≠ some "H" ∧
    qrcodeHandler ⟨some "https://example.com", none, none, none, some "H"⟩ (fun _ => true)
        (fun _ _ => Except.ok "data:image/svg+xml;base64,Zg==") =
      qrcodeHandler ⟨some "https://example.com", none, none, none, some "L"⟩ (fun _ => true)
        (fun _ _ => Except.ok "data:image/svg+xml;base64,Zg==") := by
  refine ⟨rfl, by decide, rfl⟩

/-- C6 amended: a missing or empty `url` (the text field) yields the 400
failure response; omitted options default to width 300, dark `#000000`,
light `#ffffff`; the error-correction level is always `M` — the `eccLevel`
body field is ignored, so the response never depends on it. -/
theorem qrcode_handler_spec (b : QrBody) (urlValid : String → Bool)
    (gen : String → GenOptions → Except String String) :
    (b.url = none → qrcodeHandler b urlValid gen = QrResponse.err 400 "Please provide a URL") ∧
    (b.url = some "" → qrcodeHandler b urlValid gen = QrResponse.err 400 "Please provide a URL") ∧
    qrcodeOptions b =
      { width := some (b.size.getD 300), margin := some 2,
        dark := some (b.darkColor.getD "#000000"),
        light := some (b.lightColor.getD "#ffffff"), ecl := some "M" } ∧
    (∀ e, qrcodeHandler b urlValid gen = qrcodeHandler { b with eccLevel := e } urlValid gen) := by
  refine ⟨?_, ?_, rfl, ?_⟩
  · intro h
    simp [qrcodeHandler, h]
  · intro h
    simp [qrcodeHandler, h]
  · intro e
    cases b
    rfl

/-- C6 witness: a missing `url` is rejected, and swapping the supplied
`eccLevel` from `H` to `L` leaves the response unchanged. -/
theorem qrcode_handler_spec_witness :
    qrcodeHandler ⟨none, none, none, none, none⟩ (fun _ => true) (fun _ _ => Except.error "e")
      = QrResponse.err 400 "Please provide a URL" ∧
    qrcodeHandler ⟨some "u", none, none, none, some "H"⟩ (fun _ => true)
        (fun _ _ => Except.error "e")
      = qrcodeHandler ⟨some "u", none, none, none, some "L"⟩ (fun _ => true)
        (fun _ _ => Except.error "e") := by
  constructor
  · exact (qrcode_handler_spec ⟨none, none, none, none, none⟩ (fun _ => true)
      (fun _ _ => Except.error "e")).1 rfl
  · exact (qrcode_handler_spec ⟨some "u", none, none, none, some "H"⟩ (fun _ => true)
      (fun _ _ => Except.error "e")).2.2.2 (some "L")

/-- C8 counterexample: `generateQRCode` does write state outside its
arguments.  On a throwing invocation (here: empty text, one of the claim's
"every text and options value" instances) the catch block's
`console.error` appends an entry to the console log, so the world after
the call differs from the world before it. -/
theorem generateQRCode_console_write_on_throw :
    (generateQRCode ⟨fun _ => Except.ok "s", false, fun _ => none, fun s => s, fun s => s⟩
        ⟨[]⟩ "" ⟨none, none, none, none, none⟩).1
      = ⟨["QR Code generation failed: Invalid text for QR code generation"]⟩ ∧
    (generateQRCode ⟨fun _ => Except.ok "s", false, fun _ => none, fun s => s, fun s => s⟩
        ⟨[]⟩ "" ⟨none, none, none, none, none⟩).1 ≠ ⟨[]⟩ := by
  constructor
  · rfl
  · decide

/-- C8 amended: `generateQRCode` is deterministic — its collaborators (the
`qrcode-svg` renderer, the platform codecs `btoa` / `encodeURIComponent` /
`unescape` and the `typeof btoa` configuration read) are pure functions
fixed in `p`, and beyond them the computation reads nothing, so the result
is independent of the ambient world `w` and two invocations with identical
arguments return identical data-URL strings.  On a returning invocation it
writes no state outside its arguments (the console log is unchanged), but
on every throwing path it writes exactly one `console.error` entry to the
log before rethrowing. -/
theorem generateQRCode_pure_modulo_log (p : Platform) (text : String) (opts : GenOptions)
    (w w2 : World) :
    (generateQRCode p w text opts).2 = (generateQRCode p w2 text opts).2 ∧
    (∀ s, (generateQRCode p w text opts).2 = Except.ok s →
      (generateQRCode p w text opts).1 = w) ∧
    (∀ e, (generateQRCode p w text opts).2 = Except.error e →
      ∃ entry, (generateQRCode p w text opts).1.log = w.log ++ [entry]) := by
  by_cases ht : text = ""
  · refine ⟨by simp [generateQRCode, ht], ?_, ?_⟩
    · intro s h
      simp [generateQRCode, ht] at h
    · intro e h
      exact ⟨"QR Code generation failed: Invalid text for QR code generation",
        by simp [generateQRCode, ht]⟩
  · cases hs : p.svgRender (svgParamsOf text opts) with
    | error e2 =>
      refine ⟨by simp [generateQRCode, ht, hs], ?_, ?_⟩
      · intro s h
        simp [generateQRCode, ht, hs] at h
      · intro e h
        exact ⟨"QR Code generation failed: " ++ e2, by simp [generateQRCode, ht, hs]⟩
    | ok svg =>
      by_cases hsv : svg = ""
      · refine ⟨by simp [generateQRCode, ht, hs, hsv], ?_, ?_⟩
        · intro s h
          simp [generateQRCode, ht, hs, hsv] at h
        · intro e h
          exact ⟨"QR Code generation failed: QR code generation returned invalid SVG",
            by simp [generateQRCode, ht, hs, hsv]⟩
      · refine ⟨by simp [generateQRCode, ht, hs, hsv], ?_, ?_⟩
        · intro s h
          simp [generateQRCode, ht, hs, hsv]
        · intro e h
          simp [generateQRCode, ht, hs, hsv] at h

/-- C8 witness: with a concrete pure platform, the result is the same from
two different worlds, the successful call leaves its world intact, and a
throwing call (empty text) appends exactly one log entry. -/
theorem generateQRCode_pure_modulo_log_witness :
    (generateQRCode ⟨fun _ => Except.ok "s", false, fun _ => none, fun s => s, fun s => s⟩
        ⟨[]⟩ "https://example.com" ⟨none, none, none, none, none⟩).2
      = (generateQRCode ⟨fun _ => Except.ok "s", false, fun _ => none, fun s => s, fun s => s⟩
        ⟨["old entry"]⟩ "https://example.com" ⟨none, none, none, none, none⟩).2 ∧
    (generateQRCode ⟨fun _ => Except.ok "s", false, fun _ => none, fun s => s, fun s => s⟩
        ⟨[]⟩ "https://example.com" ⟨none, none, none, none, none⟩).1 = ⟨[]⟩ ∧
    ∃ entry,
      (generateQRCode ⟨fun _ => Except.ok "s", false, fun _ => none, fun s => s, fun s => s⟩
        ⟨[]⟩ "" ⟨none, none, none, none, none⟩).1.log = [entry] := by
  have h1 := generateQRCode_pure_modulo_log
    ⟨fun _ => Except.ok "s", false, fun _ => none, fun s => s, fun s => s⟩
    "https://example.com" ⟨none, none, none, none, none⟩ ⟨[]⟩ ⟨["old entry"]⟩
  have h2 := generateQRCode_pure_modulo_log
    ⟨fun _ => Except.ok "s", false, fun _ => none, fun s => s, fun s => s⟩
    "" ⟨none, none, none, none, none⟩ ⟨[]⟩ ⟨[]⟩
  exact ⟨h1.1, h1.2.1 "data:image/svg+xml;charset=utf-8,s" rfl,
    h2.2.2 "Invalid text for QR code generation" rfl⟩

/-- C10: whenever `generateQRCode` returns (does not throw), the returned
string begins with `data:image/svg+xml` — in the `;base64,` or the
`;charset=utf-8,` variant — and in particular with `data:image`, so the
upload handler's later `startsWith('data:image')` verification can never
fail on a returned value. -/
theorem generateQRCode_returns_data_url (p : Platform) (w : World) (text : String)
    (opts : GenOptions) (s : String)
    (h : (generateQRCode p w text opts).2 = Except.ok s) :
    strStartsWith s "data:image/svg+xml" = true ∧
    strStartsWith s "data:image" = true ∧
    (strStartsWith s "data:image/svg+xml;base64," = true ∨
     strStartsWith s "data:image/svg+xml;charset=utf-8," = true) := by
  by_cases ht : text = ""
  · simp [generateQRCode, ht] at h
  · cases hs : p.svgRender (svgParamsOf text opts) with
    | error e => simp [generateQRCode, ht, hs] at h
    | ok svg =>
      by_cases hsv : svg = ""
      · simp [generateQRCode, ht, hs, hsv] at h
      · simp only [generateQRCode, ht, hs, hsv, if_neg, if_false] at h
        have hcases :
            (∃ b64, s = "data:image/svg+xml;base64," ++ b64) ∨
            s = "data:image/svg+xml;charset=utf-8," ++ p.encodeURI svg := by
          by_cases hb : p.btoaDefined
          · simp only [hb, if_true] at h
            cases hbt : p.btoa (p.unescape (p.encodeURI svg)) with
            | some b64 =>
              rw [hbt] at h
              simp only [Except.ok.injEq] at h
              exact Or.inl ⟨b64, h.symm⟩
            | none =>
              rw [hbt] at h
              simp only [Except.ok.injEq] at h
              exact Or.inr h.symm
          · simp only [hb, if_false] at h
            simp only [Except.ok.injEq] at h
            exact Or.inr h.symm
        rcases hcases with ⟨b64, hb64⟩ | hutf
        · subst hb64
          refine ⟨?_, ?_, Or.inl ?_⟩
          · exact strStartsWith_append "data:image/svg+xml" ";base64," b64
          · exact strStartsWith_append "data:image" "/svg+xml;base64," b64
          · exact strStartsWith_append "data:image/svg+xml;base64," "" b64
        · subst hutf
          refine ⟨?_, ?_, Or.inr ?_⟩
          · exact strStartsWith_append "data:image/svg+xml" ";charset=utf-8," (p.encodeURI svg)
          · exact strStartsWith_append "data:image" "/svg+xml;charset=utf-8," (p.encodeURI svg)
          · exact strStartsWith_append "data:image/svg+xml;charset=utf-8," "" (p.encodeURI svg)

/-- C10 witness: a concrete successful generation, whose output passes all
three checks. -/
theorem generateQRCode_returns_data_url_witness :
    strStartsWith "data:image/svg+xml;charset=utf-8,s" "data:image/svg+xml" = true ∧
    strStartsWith "data:image/svg+xml;charset=utf-8,s" "data:image" = true ∧
    (strStartsWith "data:image/svg+xml;charset=utf-8,s" "data:image/svg+xml;base64," = true ∨
     strStartsWith "data:image/svg+xml;charset=utf-8,s" "data:image/svg+xml;charset=utf-8," = true) :=
  generateQRCode_returns_data_url
    ⟨fun _ => Except.ok "s", false, fun _ => none, fun s => s, fun s => s⟩
    ⟨[]⟩ "https://example.com" ⟨none, none, none, none, none⟩
    "data:image/svg+xml;charset=utf-8,s" rfl

/-- C3 witness: a 10 MiB PNG payload passes validation and reaches the
store write. -/
theorem upload_validation_iff_witness :
    (uploadHandler (some ⟨"p.png", "image/png", 10485760⟩) 42 "0.abcdef" "o" none none
        (fun _ => true) (fun _ _ => Except.ok "d")).2 ≠ [] ∧ maxSize = 10485760 := by
  have h := upload_validation_iff ⟨"p.png", "image/png", 10 * 1024 * 1024⟩ 42 "0.abcdef" "o"
    none none (fun _ => true) (fun _ _ => Except.ok "d")
  exact ⟨h.1.mpr ⟨by decide, by decide⟩, h.2⟩

/-- C5 witness: a concrete key's random component is within 6 characters
and the handler's trace holds no bucket `get`. -/
theorem upload_key_shape_witness :
    (jsSubstring "0.abc" 2 8).length ≤ 6 ∧
    StoreOp.get "42-abc.png" ∉ (uploadHandler (some ⟨"a.png", "image/png", 1⟩) 42 "0.abc" "o"
      none none (fun _ => true) (fun _ _ => Except.ok "d")).2 := by
  have h := upload_key_shape 42 "0.abc" "a.png" "o" (some ⟨"a.png", "image/png", 1⟩) none none
    (fun _ => true) (fun _ _ => Except.ok "d")
  exact ⟨h.2.1, h.2.2 "42-abc.png"⟩

end QRService
